import Mathlib

/-!
Shallow embedding of the Elastic-Stick-Simulator core over the reals:
the `Vec3` vector-math module (src/App.tsx, bottom section), the
`Stick` class (src/unnamed/part_000) with its `reset`, `swing`
(`Advance`), `performPhysicsStep` and `queryPNormalize` operations,
and the `ElasticProperties` record (src/types.ts).  JavaScript numbers
are modelled as real numbers; the JS `||` defaulting idiom on numbers
is modelled by `orDefault` (a number is falsy exactly when it is 0).
-/

noncomputable section

namespace ESS

/-- Vector3 record from src/types.ts: three real components. -/
@[ext] structure Vector3 where
  x : ℝ
  y : ℝ
  z : ℝ

namespace Vec3

/-- Vec3.create from src/App.tsx. -/
def create (x y z : ℝ) : Vector3 := ⟨x, y, z⟩

/-- Vec3.add. -/
def add (a b : Vector3) : Vector3 := ⟨a.x + b.x, a.y + b.y, a.z + b.z⟩

/-- Vec3.sub. -/
def sub (a b : Vector3) : Vector3 := ⟨a.x - b.x, a.y - b.y, a.z - b.z⟩

/-- Vec3.scale. -/
def scale (v : Vector3) (s : ℝ) : Vector3 := ⟨v.x * s, v.y * s, v.z * s⟩

/-- Vec3.dot. -/
def dot (a b : Vector3) : ℝ := a.x * b.x + a.y * b.y + a.z * b.z

/-- Vec3.length: Euclidean norm. -/
def length (v : Vector3) : ℝ := Real.sqrt (v.x * v.x + v.y * v.y + v.z * v.z)

/-- Vec3.normalize: the zero vector for zero-length input, else the
input divided componentwise by its length (src/App.tsx lines 558-562). -/
def normalize (v : Vector3) : Vector3 :=
  if length v = 0 then ⟨0, 0, 0⟩
  else ⟨v.x / length v, v.y / length v, v.z / length v⟩

/-- Vec3.distance. -/
def distance (a b : Vector3) : ℝ :=
  Real.sqrt ((a.x - b.x) * (a.x - b.x) + (a.y - b.y) * (a.y - b.y) +
    (a.z - b.z) * (a.z - b.z))

/-- Vec3.lerp. -/
def lerp (a b : Vector3) (t : ℝ) : Vector3 :=
  ⟨a.x + (b.x - a.x) * t, a.y + (b.y - a.y) * t, a.z + (b.z - a.z) * t⟩

end Vec3

/-- JavaScript `x || d` on numbers: `d` when `x` is falsy (0), else `x`. -/
def orDefault (x d : ℝ) : ℝ := if x = 0 then d else x

/-- ElasticProperties record from src/types.ts (all fields are declared,
none optional, so the `=== undefined` default for maxBendAngle in the
source is dead code and the field is modelled directly). -/
structure ElasticProperties where
  stiffness : ℝ
  damping : ℝ
  mass : ℝ
  stretchFactor : ℝ
  gripRatio : ℝ
  maxStretchRatio : ℝ
  maxBendAngle : ℝ
  taper : ℝ

/-- The Stick class state (src/unnamed/part_000 lines 4-13). -/
@[ext] structure Stick where
  length : ℝ
  props : ElasticProperties
  handlePos : Vector3
  handleDir : Vector3
  tipPos : Vector3
  oldTipPos : Vector3

namespace Stick

/-- Stick.reset (lines 37-46): re-seat the tip at the rigid rest pose
and zero the implicit velocity. -/
def reset (s : Stick) : Stick :=
  let activeLength := s.length * (1 - orDefault s.props.gripRatio 0)
  let tip := Vec3.add s.handlePos (Vec3.scale s.handleDir activeLength)
  { s with tipPos := tip, oldTipPos := tip }

/-- The Stick constructor (lines 15-27): handle at the origin pointing
up, tip fields seeded at (0, length, 0), then an immediate reset. -/
def new (length : ℝ) (props : ElasticProperties) : Stick :=
  Stick.reset
    { length := length, props := props,
      handlePos := ⟨0, 0, 0⟩, handleDir := ⟨0, 1, 0⟩,
      tipPos := ⟨0, length, 0⟩, oldTipPos := ⟨0, length, 0⟩ }

/-- Stick.updateProperties (lines 29-32). -/
def updateProperties (s : Stick) (length : ℝ) (props : ElasticProperties) : Stick :=
  { s with length := length, props := props }

/-- Stage 1-2 of performPhysicsStep (lines 75-108): Verlet integration
with damped implicit velocity and the bending-spring acceleration,
producing the candidate next tip position. -/
def verletCandidate (s : Stick) (activeLength dt : ℝ) : Vector3 :=
  let velocity := Vec3.sub s.tipPos s.oldTipPos
  let drag := max 0 (1.0 - s.props.damping * dt)
  let dampedVelocity := Vec3.scale velocity drag
  let idealTipPos := Vec3.add s.handlePos (Vec3.scale s.handleDir activeLength)
  let displacement := Vec3.sub idealTipPos s.tipPos
  let taperMultiplier := 1.0 + orDefault s.props.taper 0 * 0.5
  let effectiveStiffness := s.props.stiffness * taperMultiplier
  let springForce := Vec3.scale displacement effectiveStiffness
  let mass := max 0.1 s.props.mass
  let accel := Vec3.scale springForce (1 / mass)
  let delta := Vec3.add dampedVelocity (Vec3.scale accel (dt * dt))
  Vec3.add s.tipPos delta

/-- Stage 3 of performPhysicsStep (lines 110-125): soft PBD length
correction toward activeLength, skipped within 1e-4 of the handle. -/
def softLengthCorrection (handlePos : Vector3) (stretchFactor activeLength dt : ℝ)
    (nextPos : Vector3) : Vector3 :=
  let toHandle := Vec3.sub nextPos handlePos
  let currentLen := Vec3.length toHandle
  if currentLen > 0.0001 then
    let stiffnessFactor := stretchFactor * 0.05 * dt
    let alpha := min 1.0 (max 0.0 stiffnessFactor)
    let targetLen := activeLength
    let correctionLen := currentLen + (targetLen - currentLen) * alpha
    Vec3.add handlePos (Vec3.scale (Vec3.normalize toHandle) correctionLen)
  else nextPos

/-- Stage 4 of performPhysicsStep (lines 127-167): hard bend-cone
constraint via explicit two-weight slerp onto the cone boundary. -/
def bendClamp (handlePos handleDir : Vector3) (maxAngleDeg : ℝ)
    (nextPos : Vector3) : Vector3 :=
  let vecToTip := Vec3.sub nextPos handlePos
  let tipDist := Vec3.length vecToTip
  if tipDist > 0.0001 then
    let tipDir := Vec3.scale vecToTip (1 / tipDist)
    let cosAngle := Vec3.dot tipDir handleDir
    if maxAngleDeg < 179.9 then
      let maxAngleRad := maxAngleDeg * (Real.pi / 180)
      let minCos := Real.cos maxAngleRad
      if cosAngle < minCos then
        let currentAngle := Real.arccos (max (-1) (min 1 cosAngle))
        if currentAngle > 0.001 then
          let tSlerp := maxAngleRad / currentAngle
          let sinAngle := Real.sin currentAngle
          let w1 := Real.sin ((1 - tSlerp) * currentAngle) / sinAngle
          let w2 := Real.sin (tSlerp * currentAngle) / sinAngle
          let newDir := Vec3.add (Vec3.scale handleDir w1) (Vec3.scale tipDir w2)
          let tipDir2 := Vec3.normalize newDir
          Vec3.add handlePos (Vec3.scale tipDir2 tipDist)
        else nextPos
      else nextPos
    else nextPos
  else nextPos

/-- Stage 5 of performPhysicsStep (lines 169-179): hard max-stretch
clamp, projecting radially back to the allowed length. -/
def stretchClamp (handlePos : Vector3) (maxAllowedLen : ℝ) (nextPos : Vector3) : Vector3 :=
  let finalVec := Vec3.sub nextPos handlePos
  let finalDist := Vec3.length finalVec
  if finalDist > maxAllowedLen then
    Vec3.add handlePos (Vec3.scale (Vec3.normalize finalVec) maxAllowedLen)
  else nextPos

/-- Stick.performPhysicsStep (lines 74-184): one Verlet sub-step with
the fixed constraint pipeline, committing the previous tip position. -/
def performPhysicsStep (s : Stick) (activeLength dt : ℝ) : Stick :=
  let nextPos :=
    stretchClamp s.handlePos (activeLength * orDefault s.props.maxStretchRatio 1.5)
      (bendClamp s.handlePos s.handleDir s.props.maxBendAngle
        (softLengthCorrection s.handlePos s.props.stretchFactor activeLength dt
          (verletCandidate s activeLength dt)))
  { s with oldTipPos := s.tipPos, tipPos := nextPos }

/-- Stick.swing (lines 52-72): the Advance entry point — store the
pose, short-circuit a degenerate rod, else run 8 fixed sub-steps. -/
def swing (s : Stick) (handlePos handleDir : Vector3) (dt : ℝ) : Stick :=
  let s1 := { s with handlePos := handlePos, handleDir := Vec3.normalize handleDir }
  let gripRatio := orDefault s1.props.gripRatio 0
  let activeLength := s1.length * (1 - gripRatio)
  if activeLength < 0.1 then
    { s1 with tipPos := handlePos, oldTipPos := handlePos }
  else
    let subDt := dt / 8
    (fun st => performPhysicsStep st activeLength subDt)^[8] s1

/-- Stick.queryPNormalize (lines 190-246): pommel extrapolation behind
the grip, else taper-weighted cubic Bezier over the active blade. -/
def queryPNormalize (s : Stick) (t : ℝ) : Vector3 :=
  let gripRatio := orDefault s.props.gripRatio 0
  let taper := orDefault s.props.taper 0
  if t < gripRatio then
    if gripRatio = 0 then s.handlePos
    else
      let distBack := (gripRatio - t) * s.length
      Vec3.sub s.handlePos (Vec3.scale s.handleDir distBack)
  else
    let activeLength := s.length * (1 - gripRatio)
    if activeLength ≤ 0.1 then s.handlePos
    else
      let segmentT := (t - gripRatio) / (1 - gripRatio)
      let p0 := s.handlePos
      let p3 := s.tipPos
      let handleWeight := 0.33 + taper * 0.4
      let tipWeight := 0.33 - taper * 0.1
      let p1 := Vec3.add p0 (Vec3.scale s.handleDir (activeLength * handleWeight))
      let vecToTip := Vec3.sub p3 p0
      let dirToHandle := Vec3.normalize (Vec3.scale vecToTip (-1))
      let p2Dir := Vec3.normalize (Vec3.add dirToHandle (Vec3.scale s.handleDir 0.5))
      let p2 := Vec3.add p3 (Vec3.scale p2Dir (activeLength * tipWeight))
      let u := 1 - segmentT
      let tt := segmentT * segmentT
      let uu := u * u
      let uuu := uu * u
      let ttt := tt * segmentT
      let term0 := Vec3.scale p0 uuu
      let term1 := Vec3.scale p1 (3 * uu * segmentT)
      let term2 := Vec3.scale p2 (3 * u * tt)
      let term3 := Vec3.scale p3 ttt
      Vec3.add (Vec3.add term0 term1) (Vec3.add term2 term3)

end Stick

/-! Helper lemmas about the vector operations. -/

namespace Vec3

theorem length_nonneg (v : Vector3) : 0 ≤ length v := Real.sqrt_nonneg _

theorem sumSq_nonneg (v : Vector3) : 0 ≤ v.x * v.x + v.y * v.y + v.z * v.z :=
  add_nonneg (add_nonneg (mul_self_nonneg _) (mul_self_nonneg _)) (mul_self_nonneg _)

theorem mul_self_length (v : Vector3) :
    length v * length v = v.x * v.x + v.y * v.y + v.z * v.z :=
  Real.mul_self_sqrt (sumSq_nonneg v)

theorem dot_self (v : Vector3) : dot v v = length v * length v :=
  (mul_self_length v).symm

theorem length_zero : length ⟨0, 0, 0⟩ = 0 := by
  simp [length]

theorem length_eq_zero_iff (v : Vector3) : length v = 0 ↔ v = ⟨0, 0, 0⟩ := by
  constructor
  · intro h
    have hsum : v.x * v.x + v.y * v.y + v.z * v.z = 0 := by
      have := mul_self_length v
      rw [h] at this
      linarith
    have hx : v.x * v.x = 0 := by
      nlinarith [mul_self_nonneg v.x, mul_self_nonneg v.y, mul_self_nonneg v.z]
    have hy : v.y * v.y = 0 := by
      nlinarith [mul_self_nonneg v.x, mul_self_nonneg v.y, mul_self_nonneg v.z]
    have hz : v.z * v.z = 0 := by
      nlinarith [mul_self_nonneg v.x, mul_self_nonneg v.y, mul_self_nonneg v.z]
    ext
    · exact mul_self_eq_zero.mp hx
    · exact mul_self_eq_zero.mp hy
    · exact mul_self_eq_zero.mp hz
  · intro h
    rw [h]
    exact length_zero

theorem length_pos_of_ne_zero {v : Vector3} (h : length v ≠ 0) : 0 < length v :=
  lt_of_le_of_ne (length_nonneg v) (Ne.symm h)

theorem sub_add_cancel_vec (h w : Vector3) : sub (add h w) h = w := by
  ext <;> simp [add, sub]

theorem add_sub_cancel_vec (h p : Vector3) : add h (sub p h) = p := by
  ext <;> simp [add, sub]

theorem scale_zero_vec (c : ℝ) : scale ⟨0, 0, 0⟩ c = ⟨0, 0, 0⟩ := by
  ext <;> simp [scale]

theorem length_scale (v : Vector3) (c : ℝ) : length (scale v c) = |c| * length v := by
  unfold length scale
  simp only
  rw [show v.x * c * (v.x * c) + v.y * c * (v.y * c) + v.z * c * (v.z * c) =
      c * c * (v.x * v.x + v.y * v.y + v.z * v.z) by ring,
    Real.sqrt_mul (mul_self_nonneg c), Real.sqrt_mul_self_eq_abs]

theorem normalize_eq_scale {v : Vector3} (h : length v ≠ 0) :
    normalize v = scale v (1 / length v) := by
  unfold normalize
  rw [if_neg h]
  ext <;> simp [scale] <;> ring

theorem normalize_zero : normalize ⟨0, 0, 0⟩ = ⟨0, 0, 0⟩ := by
  unfold normalize
  rw [if_pos length_zero]

theorem length_normalize {v : Vector3} (h : length v ≠ 0) : length (normalize v) = 1 := by
  have hpos := length_pos_of_ne_zero h
  rw [normalize_eq_scale h, length_scale, abs_of_pos (one_div_pos.mpr hpos)]
  field_simp

theorem normalize_of_length_one {v : Vector3} (h : length v = 1) : normalize v = v := by
  unfold normalize
  rw [if_neg (by rw [h]; exact one_ne_zero), h]
  ext <;> simp

theorem scale_normalize_length {v : Vector3} (h : length v ≠ 0) :
    scale (normalize v) (length v) = v := by
  rw [normalize_eq_scale h]
  ext <;> simp [scale] <;> field_simp

theorem normalize_scale_pos (v : Vector3) {c : ℝ} (hc : 0 < c) :
    normalize (scale v c) = normalize v := by
  by_cases h : length v = 0
  · rw [(length_eq_zero_iff v).mp h, scale_zero_vec]
  · have hsc : length (scale v c) = c * length v := by
      rw [length_scale, abs_of_pos hc]
    have hsc0 : length (scale v c) ≠ 0 := by
      rw [hsc]
      exact mul_ne_zero hc.ne' h
    rw [normalize_eq_scale hsc0, normalize_eq_scale h, hsc]
    ext <;> simp [scale] <;> field_simp <;> ring

theorem normalize_idem (v : Vector3) : normalize (normalize v) = normalize v := by
  by_cases h : length v = 0
  · rw [(length_eq_zero_iff v).mp h, normalize_zero, normalize_zero]
  · exact normalize_of_length_one (length_normalize h)

theorem abs_dot_le_one {a b : Vector3} (ha : length a = 1) (hb : length b = 1) :
    -1 ≤ dot a b ∧ dot a b ≤ 1 := by
  have h1 : a.x * a.x + a.y * a.y + a.z * a.z = 1 := by
    have := mul_self_length a
    rw [ha] at this
    linarith
  have h2 : b.x * b.x + b.y * b.y + b.z * b.z = 1 := by
    have := mul_self_length b
    rw [hb] at this
    linarith
  have hcs : dot a b * dot a b ≤ 1 := by
    unfold dot
    nlinarith [sq_nonneg (a.x * b.y - a.y * b.x), sq_nonneg (a.x * b.z - a.z * b.x),
      sq_nonneg (a.y * b.z - a.z * b.y)]
  constructor <;> nlinarith

theorem distance_eq (a b : Vector3) : distance a b = length (sub a b) := rfl

end Vec3

theorem orDefault_zero (x : ℝ) : orDefault x 0 = x := by
  by_cases h : x = 0 <;> simp [orDefault, h]

theorem orDefault_of_ne {x : ℝ} (d : ℝ) (h : x ≠ 0) : orDefault x d = x := by
  simp [orDefault, h]

theorem orDefault_zero_left (d : ℝ) : orDefault 0 d = d := by
  simp [orDefault]

namespace Stick

theorem performPhysicsStep_handlePos (s : Stick) (aL dt : ℝ) :
    (performPhysicsStep s aL dt).handlePos = s.handlePos := rfl

theorem performPhysicsStep_handleDir (s : Stick) (aL dt : ℝ) :
    (performPhysicsStep s aL dt).handleDir = s.handleDir := rfl

theorem performPhysicsStep_props (s : Stick) (aL dt : ℝ) :
    (performPhysicsStep s aL dt).props = s.props := rfl

theorem iterate_step_handlePos (aL dt : ℝ) (n : ℕ) (s : Stick) :
    ((fun st => performPhysicsStep st aL dt)^[n] s).handlePos = s.handlePos := by
  induction n with
  | zero => rfl
  | succ n ih =>
    rw [Function.iterate_succ_apply']
    exact ih

theorem iterate_step_handleDir (aL dt : ℝ) (n : ℕ) (s : Stick) :
    ((fun st => performPhysicsStep st aL dt)^[n] s).handleDir = s.handleDir := by
  induction n with
  | zero => rfl
  | succ n ih =>
    rw [Function.iterate_succ_apply']
    exact ih

theorem iterate_step_props (aL dt : ℝ) (n : ℕ) (s : Stick) :
    ((fun st => performPhysicsStep st aL dt)^[n] s).props = s.props := by
  induction n with
  | zero => rfl
  | succ n ih =>
    rw [Function.iterate_succ_apply']
    exact ih

end Stick

/-- The spec's default material configuration (spec section 8, concrete
scenario): stiffness 8, damping 2.5, mass 2, stretchFactor 20,
gripRatio 0, maxStretchRatio 1.5, maxBendAngle 180, taper 0. -/
def props0 : ElasticProperties :=
  { stiffness := 8, damping := 2.5, mass := 2, stretchFactor := 20, gripRatio := 0,
    maxStretchRatio := 1.5, maxBendAngle := 180, taper := 0 }

/-- The default configuration with the grip moved to 0.95 of the length. -/
def props95 : ElasticProperties := { props0 with gripRatio := 0.95 }

/-- C5: reset is idempotent (a second reset with no Advance in between
changes neither tip field), the implicit velocity right after reset is
the zero vector, and the tip sits at the rigid rest pose
handlePosition + handleDirection * activeLength. -/
theorem reset_idempotent_zero_velocity (s : Stick) :
    (s.reset.reset).tipPos = s.reset.tipPos ∧
    (s.reset.reset).oldTipPos = s.reset.oldTipPos ∧
    Vec3.sub s.reset.tipPos s.reset.oldTipPos = ⟨0, 0, 0⟩ ∧
    s.reset.tipPos = Vec3.add s.handlePos
      (Vec3.scale s.handleDir (s.length * (1 - s.props.gripRatio))) := by
  refine ⟨rfl, rfl, ?_, ?_⟩
  · show Vec3.sub (Vec3.add s.handlePos _) (Vec3.add s.handlePos _) = _
    ext <;> simp [Vec3.sub]
  · show Vec3.add s.handlePos (Vec3.scale s.handleDir
      (s.length * (1 - orDefault s.props.gripRatio 0))) = _
    rw [orDefault_zero]

theorem new_tipPos (L : ℝ) (p : ElasticProperties) :
    (Stick.new L p).tipPos = ⟨0, L * (1 - p.gripRatio), 0⟩ := by
  show Vec3.add ⟨0, 0, 0⟩ (Vec3.scale ⟨0, 1, 0⟩ (L * (1 - orDefault p.gripRatio 0))) = _
  rw [orDefault_zero]
  ext <;> simp [Vec3.add, Vec3.scale]

/-- C9: construction places the handle at the origin pointing up and,
because the constructor ends in reset, the tip (and previous tip) at
(0, length * (1 - gripRatio), 0) with zero implicit velocity. -/
theorem construction_state (L : ℝ) (p : ElasticProperties) :
    (Stick.new L p).handlePos = ⟨0, 0, 0⟩ ∧
    (Stick.new L p).handleDir = ⟨0, 1, 0⟩ ∧
    (Stick.new L p).tipPos = ⟨0, L * (1 - p.gripRatio), 0⟩ ∧
    (Stick.new L p).oldTipPos = (Stick.new L p).tipPos :=
  ⟨rfl, rfl, new_tipPos L p, rfl⟩

/-- C8: normalize maps the zero vector to the zero vector (no division
ever happens there), and any nonzero vector has nonzero length and is
mapped to itself divided by its Euclidean length. -/
theorem normalize_spec :
    Vec3.normalize ⟨0, 0, 0⟩ = ⟨0, 0, 0⟩ ∧
    ∀ v : Vector3, v ≠ ⟨0, 0, 0⟩ →
      Vec3.length v ≠ 0 ∧ Vec3.normalize v = Vec3.scale v (1 / Vec3.length v) := by
  refine ⟨Vec3.normalize_zero, fun v hv => ?_⟩
  have h : Vec3.length v ≠ 0 := fun h0 => hv ((Vec3.length_eq_zero_iff v).mp h0)
  exact ⟨h, Vec3.normalize_eq_scale h⟩

/-- Witness for C8 at the concrete nonzero vector (3, 4, 0). -/
theorem normalize_spec_witness :
    (⟨3, 4, 0⟩ : Vector3) ≠ ⟨0, 0, 0⟩ ∧
    (Vec3.length ⟨3, 4, 0⟩ ≠ 0 ∧
      Vec3.normalize ⟨3, 4, 0⟩ = Vec3.scale ⟨3, 4, 0⟩ (1 / Vec3.length ⟨3, 4, 0⟩)) :=
  ⟨by simp, normalize_spec.2 ⟨3, 4, 0⟩ (by simp)⟩

/-- C4: whenever activeLength = length * (1 - gripRatio) is below 0.1,
Advance snaps both tip fields exactly to the supplied handle position
without running any physics sub-step. -/
theorem degenerate_rod (s : Stick) (h d : Vector3) (dt : ℝ)
    (hdeg : s.length * (1 - orDefault s.props.gripRatio 0) < 0.1) :
    (s.swing h d dt).tipPos = h ∧ (s.swing h d dt).oldTipPos = h := by
  unfold Stick.swing
  simp only
  rw [if_pos hdeg]
  exact ⟨rfl, rfl⟩

/-- Witness for C4: the spec's degenerate scenario, length 1 and
gripRatio 0.95 (activeLength 0.05), with an arbitrary handle pose. -/
theorem degenerate_rod_witness :
    (Stick.new 1 props95).length *
      (1 - orDefault (Stick.new 1 props95).props.gripRatio 0) < 0.1 ∧
    ((Stick.new 1 props95).swing ⟨2, 3, 4⟩ ⟨0, 1, 0⟩ 0.016).tipPos = ⟨2, 3, 4⟩ := by
  have hdeg : (Stick.new 1 props95).length *
      (1 - orDefault (Stick.new 1 props95).props.gripRatio 0) < 0.1 := by
    show (1 : ℝ) * (1 - orDefault (0.95 : ℝ) 0) < 0.1
    rw [orDefault_zero]
    norm_num
  exact ⟨hdeg, (degenerate_rod _ ⟨2, 3, 4⟩ ⟨0, 1, 0⟩ 0.016 hdeg).1⟩

namespace Stick

theorem stretchClamp_dist_le (hp : Vector3) {m : ℝ} (hm : 0 ≤ m) (p : Vector3) :
    Vec3.length (Vec3.sub (stretchClamp hp m p) hp) ≤ m := by
  unfold stretchClamp
  simp only
  split_ifs with hgt
  · rw [Vec3.sub_add_cancel_vec]
    have hne : Vec3.length (Vec3.sub p hp) ≠ 0 := by
      intro h0
      rw [h0] at hgt
      exact absurd hgt (not_lt.mpr hm)
    rw [Vec3.length_scale, Vec3.length_normalize hne, mul_one, abs_of_nonneg hm]
  · exact not_lt.mp hgt

theorem performPhysicsStep_dist_le (s : Stick) (aL dt : ℝ)
    (hm : 0 ≤ aL * orDefault s.props.maxStretchRatio 1.5) :
    Vec3.length (Vec3.sub (s.performPhysicsStep aL dt).tipPos s.handlePos) ≤
      aL * orDefault s.props.maxStretchRatio 1.5 :=
  stretchClamp_dist_le s.handlePos hm _

/-- Unfolding equation for swing: the degenerate snap, or 8 sub-steps. -/
theorem swing_eq (s : Stick) (h d : Vector3) (dt : ℝ) :
    s.swing h d dt =
      if s.length * (1 - orDefault s.props.gripRatio 0) < 0.1 then
        { s with handlePos := h, handleDir := Vec3.normalize d,
                 tipPos := h, oldTipPos := h }
      else
        (fun st => performPhysicsStep st
            (s.length * (1 - orDefault s.props.gripRatio 0)) (dt / 8))^[8]
          { s with handlePos := h, handleDir := Vec3.normalize d } := rfl

end Stick

/-- C1: after any Advance call the distance from the tip to the handle
is bounded by activeLength * maxStretchRatio, for any configuration
within the spec's domains (length at least 0, gripRatio at most 1,
maxStretchRatio at least 1).  Over the reals the bound is exact. -/
theorem maxStretch_invariant (s : Stick) (h d : Vector3) (dt : ℝ)
    (hL : 0 ≤ s.length) (hg : s.props.gripRatio ≤ 1)
    (hratio : 1 ≤ s.props.maxStretchRatio) :
    Vec3.distance (s.swing h d dt).tipPos (s.swing h d dt).handlePos ≤
      (s.length * (1 - s.props.gripRatio)) * s.props.maxStretchRatio := by
  have haL : 0 ≤ s.length * (1 - s.props.gripRatio) := mul_nonneg hL (by linarith)
  have hrne : s.props.maxStretchRatio ≠ 0 := by positivity
  have hm : 0 ≤ (s.length * (1 - s.props.gripRatio)) * s.props.maxStretchRatio :=
    mul_nonneg haL (by linarith)
  rw [Vec3.distance_eq, Stick.swing_eq]
  simp only [orDefault_zero]
  split_ifs with hdeg
  · show Vec3.length (Vec3.sub h h) ≤ _
    have hzero : Vec3.sub h h = ⟨0, 0, 0⟩ := by ext <;> simp [Vec3.sub]
    rw [hzero, Vec3.length_zero]
    exact hm
  · rw [show (8 : ℕ) = 7 + 1 from rfl, Function.iterate_succ_apply']
    have key := Stick.performPhysicsStep_dist_le
      ((fun st => Stick.performPhysicsStep st
          (s.length * (1 - s.props.gripRatio)) (dt / 8))^[7]
        { s with handlePos := h, handleDir := Vec3.normalize d })
      (s.length * (1 - s.props.gripRatio)) (dt / 8) ?_
    · rw [Stick.iterate_step_handlePos] at key
      rw [Stick.iterate_step_props] at key
      rw [orDefault_of_ne 1.5 hrne] at key
      exact key
    · rw [Stick.iterate_step_props, orDefault_of_ne 1.5 hrne]
      exact hm

namespace Stick

theorem verletCandidate_dt_zero (s : Stick) (aL : ℝ) :
    verletCandidate s aL 0 = Vec3.add s.tipPos (Vec3.sub s.tipPos s.oldTipPos) := by
  unfold verletCandidate
  simp only [mul_zero, sub_zero]
  rw [max_eq_right (by norm_num : (0 : ℝ) ≤ 1.0)]
  ext <;> simp [Vec3.add, Vec3.sub, Vec3.scale] <;> ring

theorem softLengthCorrection_dt_zero (hp : Vector3) (sf aL : ℝ) (p : Vector3) :
    softLengthCorrection hp sf aL 0 p = p := by
  unfold softLengthCorrection
  simp only
  split_ifs with hlen
  · have halpha : min 1.0 (max 0.0 (sf * 0.05 * 0)) = 0 := by norm_num
    rw [halpha]
    have hne : Vec3.length (Vec3.sub p hp) ≠ 0 := by
      intro h0
      rw [h0] at hlen
      norm_num at hlen
    rw [show Vec3.length (Vec3.sub p hp) +
        (aL - Vec3.length (Vec3.sub p hp)) * 0 = Vec3.length (Vec3.sub p hp) by ring,
      Vec3.scale_normalize_length hne, Vec3.add_sub_cancel_vec]
  · rfl

theorem bendClamp_eq_self (hp dir : Vector3) (deg : ℝ) (p : Vector3)
    (hcond : ¬ deg < 179.9 ∨ ¬ Vec3.length (Vec3.sub p hp) > 0.0001 ∨
      ¬ Vec3.dot (Vec3.scale (Vec3.sub p hp) (1 / Vec3.length (Vec3.sub p hp))) dir <
        Real.cos (deg * (Real.pi / 180))) :
    bendClamp hp dir deg p = p := by
  unfold bendClamp
  simp only
  split_ifs with h1 h2 h3 h4 <;> try rfl
  rcases hcond with hc | hc | hc
  · exact absurd h2 hc
  · exact absurd h1 hc
  · exact absurd h3 hc

theorem stretchClamp_eq_self (hp : Vector3) (m : ℝ) (p : Vector3)
    (hle : ¬ Vec3.length (Vec3.sub p hp) > m) :
    stretchClamp hp m p = p := by
  unfold stretchClamp
  simp only
  rw [if_neg hle]

end Stick

theorem length_0y0 {y : ℝ} (hy : 0 ≤ y) : Vec3.length ⟨0, y, 0⟩ = y := by
  unfold Vec3.length
  rw [show (0 : ℝ) * 0 + y * y + 0 * 0 = y ^ 2 by ring, Real.sqrt_sq hy]

theorem normalize_0y0 {y : ℝ} (hy : 0 < y) : Vec3.normalize ⟨0, y, 0⟩ = ⟨0, 1, 0⟩ := by
  have hl : Vec3.length ⟨0, y, 0⟩ = y := length_0y0 hy.le
  unfold Vec3.normalize
  rw [if_neg (by rw [hl]; exact hy.ne'), hl]
  ext <;> simp
  exact div_self hy.ne'

theorem sub_zero_vec (p : Vector3) : Vec3.sub p ⟨0, 0, 0⟩ = p := by
  ext <;> simp [Vec3.sub]

theorem stretchClamp_0y0_gt {y m : ℝ} (hy : 0 < y) (hgt : y > m) :
    Stick.stretchClamp ⟨0, 0, 0⟩ m ⟨0, y, 0⟩ = ⟨0, m, 0⟩ := by
  unfold Stick.stretchClamp
  simp only [sub_zero_vec]
  rw [length_0y0 hy.le, if_pos hgt, normalize_0y0 hy]
  ext <;> simp [Vec3.add, Vec3.scale]

theorem stretchClamp_0y0_le {y m : ℝ} (hy : 0 ≤ y) (hle : ¬ y > m) :
    Stick.stretchClamp ⟨0, 0, 0⟩ m ⟨0, y, 0⟩ = ⟨0, y, 0⟩ := by
  unfold Stick.stretchClamp
  simp only [sub_zero_vec]
  rw [length_0y0 hy, if_neg hle]

theorem normalize_up : Vec3.normalize ⟨0, 1, 0⟩ = ⟨0, 1, 0⟩ :=
  normalize_0y0 one_pos

/-- Witness for C1: the spec's concrete scenario (length 100, default
properties), handle driven to the origin facing +y with dt = 1/60. -/
theorem maxStretch_invariant_witness :
    (0 : ℝ) ≤ (Stick.new 100 props0).length ∧
    (Stick.new 100 props0).props.gripRatio ≤ 1 ∧
    1 ≤ (Stick.new 100 props0).props.maxStretchRatio ∧
    Vec3.distance
        (((Stick.new 100 props0).swing ⟨0, 0, 0⟩ ⟨1, 0, 0⟩ (1 / 60)).tipPos)
        (((Stick.new 100 props0).swing ⟨0, 0, 0⟩ ⟨1, 0, 0⟩ (1 / 60)).handlePos) ≤
      ((Stick.new 100 props0).length *
        (1 - (Stick.new 100 props0).props.gripRatio)) *
        (Stick.new 100 props0).props.maxStretchRatio := by
  have h1 : (0 : ℝ) ≤ (Stick.new 100 props0).length := by norm_num [Stick.new, Stick.reset]
  have h2 : (Stick.new 100 props0).props.gripRatio ≤ 1 := by
    show (0 : ℝ) ≤ 1
    norm_num
  have h3 : (1 : ℝ) ≤ (Stick.new 100 props0).props.maxStretchRatio := by
    show (1 : ℝ) ≤ 1.5
    norm_num
  exact ⟨h1, h2, h3, maxStretch_invariant _ _ _ _ h1 h2 h3⟩

/-- Concrete prior state for the zero-dt counterexample: handle at the
origin pointing up with the default properties, tip at (0,1,0) and
previous tip at the origin, so the implicit velocity is (0,1,0). -/
def sC : Stick :=
  { length := 1, props := props0, handlePos := ⟨0, 0, 0⟩, handleDir := ⟨0, 1, 0⟩,
    tipPos := ⟨0, 1, 0⟩, oldTipPos := ⟨0, 0, 0⟩ }

/-- The state sC after one zero-dt physics sub-step: the implicit
velocity carried the tip to (0,2,0) and the stretch clamp pulled it
back to (0,1.5,0). -/
def st2 : Stick :=
  { length := 1, props := props0, handlePos := ⟨0, 0, 0⟩, handleDir := ⟨0, 1, 0⟩,
    tipPos := ⟨0, 1.5, 0⟩, oldTipPos := ⟨0, 1, 0⟩ }

/-- The state st2 after one more zero-dt physics sub-step: a fixed
point of the sub-step. -/
def st3 : Stick :=
  { length := 1, props := props0, handlePos := ⟨0, 0, 0⟩, handleDir := ⟨0, 1, 0⟩,
    tipPos := ⟨0, 1.5, 0⟩, oldTipPos := ⟨0, 1.5, 0⟩ }

theorem step_sC : Stick.performPhysicsStep sC 1 0 = st2 := by
  unfold Stick.performPhysicsStep
  simp only
  have hvc : Stick.verletCandidate sC 1 0 = ⟨0, 2, 0⟩ := by
    rw [Stick.verletCandidate_dt_zero]
    show Vec3.add ⟨0, 1, 0⟩ (Vec3.sub ⟨0, 1, 0⟩ ⟨0, 0, 0⟩) = _
    ext <;> simp [Vec3.add, Vec3.sub] <;> norm_num
  rw [hvc, Stick.softLengthCorrection_dt_zero,
    Stick.bendClamp_eq_self _ _ _ _
      (Or.inl (show ¬ sC.props.maxBendAngle < 179.9 from by
        show ¬ (180 : ℝ) < 179.9
        norm_num)),
    show (1 : ℝ) * orDefault sC.props.maxStretchRatio 1.5 = 1.5 from by
      show (1 : ℝ) * orDefault (1.5 : ℝ) 1.5 = 1.5
      rw [orDefault_of_ne _ (by norm_num : (1.5 : ℝ) ≠ 0)]
      norm_num,
    show Stick.stretchClamp sC.handlePos 1.5 ⟨0, 2, 0⟩ = ⟨0, 1.5, 0⟩ from by
      show Stick.stretchClamp ⟨0, 0, 0⟩ 1.5 ⟨0, 2, 0⟩ = _
      exact stretchClamp_0y0_gt (by norm_num) (by norm_num)]
  rfl

theorem step_st2 : Stick.performPhysicsStep st2 1 0 = st3 := by
  unfold Stick.performPhysicsStep
  simp only
  have hvc : Stick.verletCandidate st2 1 0 = ⟨0, 2, 0⟩ := by
    rw [Stick.verletCandidate_dt_zero]
    show Vec3.add ⟨0, 1.5, 0⟩ (Vec3.sub ⟨0, 1.5, 0⟩ ⟨0, 1, 0⟩) = _
    ext <;> simp [Vec3.add, Vec3.sub] <;> norm_num
  rw [hvc, Stick.softLengthCorrection_dt_zero,
    Stick.bendClamp_eq_self _ _ _ _
      (Or.inl (show ¬ st2.props.maxBendAngle < 179.9 from by
        show ¬ (180 : ℝ) < 179.9
        norm_num)),
    show (1 : ℝ) * orDefault st2.props.maxStretchRatio 1.5 = 1.5 from by
      show (1 : ℝ) * orDefault (1.5 : ℝ) 1.5 = 1.5
      rw [orDefault_of_ne _ (by norm_num : (1.5 : ℝ) ≠ 0)]
      norm_num,
    show Stick.stretchClamp st2.handlePos 1.5 ⟨0, 2, 0⟩ = ⟨0, 1.5, 0⟩ from by
      show Stick.stretchClamp ⟨0, 0, 0⟩ 1.5 ⟨0, 2, 0⟩ = _
      exact stretchClamp_0y0_gt (by norm_num) (by norm_num)]
  rfl

theorem step_st3 : Stick.performPhysicsStep st3 1 0 = st3 := by
  unfold Stick.performPhysicsStep
  simp only
  have hvc : Stick.verletCandidate st3 1 0 = ⟨0, 1.5, 0⟩ := by
    rw [Stick.verletCandidate_dt_zero]
    show Vec3.add ⟨0, 1.5, 0⟩ (Vec3.sub ⟨0, 1.5, 0⟩ ⟨0, 1.5, 0⟩) = _
    ext <;> simp [Vec3.add, Vec3.sub] <;> norm_num
  rw [hvc, Stick.softLengthCorrection_dt_zero,
    Stick.bendClamp_eq_self _ _ _ _
      (Or.inl (show ¬ st3.props.maxBendAngle < 179.9 from by
        show ¬ (180 : ℝ) < 179.9
        norm_num)),
    show (1 : ℝ) * orDefault st3.props.maxStretchRatio 1.5 = 1.5 from by
      show (1 : ℝ) * orDefault (1.5 : ℝ) 1.5 = 1.5
      rw [orDefault_of_ne _ (by norm_num : (1.5 : ℝ) ≠ 0)]
      norm_num,
    show Stick.stretchClamp st3.handlePos 1.5 ⟨0, 1.5, 0⟩ = ⟨0, 1.5, 0⟩ from by
      show Stick.stretchClamp ⟨0, 0, 0⟩ 1.5 ⟨0, 1.5, 0⟩ = _
      exact stretchClamp_0y0_le (by norm_num) (by norm_num)]
  rfl

/-- C3 counterexample: the claim fails as stated.  From the concrete
prior state sC (implicit velocity (0,1,0)), Advance with dt = 0 moves
the tip from (0,1,0) to (0,1.5,0): the Verlet update adds the implicit
velocity to the position even when dt = 0, so a zero-dt call is not a
no-op for a state that is not at rest. -/
theorem zero_dt_not_noop : (sC.swing ⟨0, 0, 0⟩ ⟨0, 1, 0⟩ 0).tipPos ≠ sC.tipPos := by
  rw [Stick.swing_eq]
  have hA : sC.length * (1 - orDefault sC.props.gripRatio 0) = 1 := by
    rw [orDefault_zero]
    show (1 : ℝ) * (1 - 0) = 1
    norm_num
  simp only [hA, zero_div]
  rw [if_neg (by norm_num : ¬ ((1 : ℝ) < 0.1))]
  have hbase : { sC with handlePos := ⟨0, 0, 0⟩, handleDir := Vec3.normalize ⟨0, 1, 0⟩ } = sC := by
    rw [normalize_up]
    rfl
  rw [hbase]
  have hfix : (fun st => Stick.performPhysicsStep st 1 0)^[8] sC = st3 := by
    have h2 : (fun st => Stick.performPhysicsStep st 1 0)^[2] sC = st3 := by
      rw [show (2 : ℕ) = 1 + 1 from rfl, Function.iterate_succ_apply', Function.iterate_one]
      show Stick.performPhysicsStep (Stick.performPhysicsStep sC 1 0) 1 0 = st3
      rw [step_sC, step_st2]
    rw [show (8 : ℕ) = 6 + 2 from rfl, Function.iterate_add_apply, h2]
    exact Function.iterate_fixed step_st3 6
  rw [hfix]
  show (⟨0, 1.5, 0⟩ : Vector3) ≠ ⟨0, 1, 0⟩
  intro hcontra
  have := congrArg Vector3.y hcontra
  norm_num at this

/-- C3 amended: Advance with dt = 0 leaves tipPosition unchanged
provided the state is at rest (previousTipPosition = tipPosition) and
the current tip already satisfies the hard stretch bound and the bend
cone (disabled, satisfied, or tip within 1e-4 of the handle) for the
supplied pose, with a non-degenerate activeLength.  In general a
zero-dt sub-step produces nextPosition = tipPosition + (tipPosition -
previousTipPosition), not tipPosition. -/
theorem zero_dt_noop_at_rest (s : Stick) (h d : Vector3)
    (hvel : s.oldTipPos = s.tipPos)
    (haL : 0.1 ≤ s.length * (1 - orDefault s.props.gripRatio 0))
    (hdist : ¬ Vec3.length (Vec3.sub s.tipPos h) >
      (s.length * (1 - orDefault s.props.gripRatio 0)) *
        orDefault s.props.maxStretchRatio 1.5)
    (hbend : ¬ s.props.maxBendAngle < 179.9 ∨
      ¬ Vec3.length (Vec3.sub s.tipPos h) > 0.0001 ∨
      ¬ Vec3.dot (Vec3.scale (Vec3.sub s.tipPos h)
            (1 / Vec3.length (Vec3.sub s.tipPos h))) (Vec3.normalize d) <
        Real.cos (s.props.maxBendAngle * (Real.pi / 180))) :
    (s.swing h d 0).tipPos = s.tipPos := by
  rw [Stick.swing_eq, if_neg (not_lt.mpr haL)]
  simp only [zero_div]
  have hstep : Stick.performPhysicsStep
      { s with handlePos := h, handleDir := Vec3.normalize d }
      (s.length * (1 - orDefault s.props.gripRatio 0)) 0 =
      { s with handlePos := h, handleDir := Vec3.normalize d } := by
    unfold Stick.performPhysicsStep
    simp only
    rw [Stick.verletCandidate_dt_zero]
    have hv : Vec3.sub ({ s with handlePos := h, handleDir := Vec3.normalize d } : Stick).tipPos
        ({ s with handlePos := h, handleDir := Vec3.normalize d } : Stick).oldTipPos = ⟨0, 0, 0⟩ := by
      show Vec3.sub s.tipPos s.oldTipPos = _
      rw [hvel]
      ext <;> simp [Vec3.sub]
    rw [hv,
      show Vec3.add ({ s with handlePos := h, handleDir := Vec3.normalize d } : Stick).tipPos
        ⟨0, 0, 0⟩ = ({ s with handlePos := h, handleDir := Vec3.normalize d } : Stick).tipPos from by
        ext <;> simp [Vec3.add],
      Stick.softLengthCorrection_dt_zero,
      Stick.bendClamp_eq_self _ _ _ _ (show _ from hbend),
      Stick.stretchClamp_eq_self _ _ _ (show _ from hdist)]
    ext <;> first
      | rfl
      | exact congrArg Vector3.x hvel.symm
      | exact congrArg Vector3.y hvel.symm
      | exact congrArg Vector3.z hvel.symm
  exact (congrArg Stick.tipPos (Function.iterate_fixed hstep 8)).trans rfl

/-- Witness for the amended C3 at the spec's concrete rest scenario:
length 100, default properties, handle at the origin facing +y. -/
theorem zero_dt_noop_at_rest_witness :
    (Stick.new 100 props0).oldTipPos = (Stick.new 100 props0).tipPos ∧
    0.1 ≤ (Stick.new 100 props0).length *
      (1 - orDefault (Stick.new 100 props0).props.gripRatio 0) ∧
    ((Stick.new 100 props0).swing ⟨0, 0, 0⟩ ⟨0, 1, 0⟩ 0).tipPos =
      (Stick.new 100 props0).tipPos := by
  have htip : (Stick.new 100 props0).tipPos = ⟨0, 100, 0⟩ := by
    rw [new_tipPos]
    ext <;> simp [props0] <;> norm_num
  have hvel : (Stick.new 100 props0).oldTipPos = (Stick.new 100 props0).tipPos := rfl
  have haL : (0.1 : ℝ) ≤ (Stick.new 100 props0).length *
      (1 - orDefault (Stick.new 100 props0).props.gripRatio 0) := by
    show (0.1 : ℝ) ≤ 100 * (1 - orDefault (0 : ℝ) 0)
    rw [orDefault_zero]
    norm_num
  have hdist : ¬ Vec3.length (Vec3.sub (Stick.new 100 props0).tipPos ⟨0, 0, 0⟩) >
      ((Stick.new 100 props0).length *
        (1 - orDefault (Stick.new 100 props0).props.gripRatio 0)) *
        orDefault (Stick.new 100 props0).props.maxStretchRatio 1.5 := by
    rw [htip, sub_zero_vec, length_0y0 (by norm_num : (0 : ℝ) ≤ 100)]
    show ¬ (100 : ℝ) > (100 * (1 - orDefault (0 : ℝ) 0)) * orDefault (1.5 : ℝ) 1.5
    rw [orDefault_zero, orDefault_of_ne _ (by norm_num : (1.5 : ℝ) ≠ 0)]
    norm_num
  have hbend : ¬ (Stick.new 100 props0).props.maxBendAngle < 179.9 ∨
      ¬ Vec3.length (Vec3.sub (Stick.new 100 props0).tipPos ⟨0, 0, 0⟩) > 0.0001 ∨
      ¬ Vec3.dot (Vec3.scale (Vec3.sub (Stick.new 100 props0).tipPos ⟨0, 0, 0⟩)
            (1 / Vec3.length (Vec3.sub (Stick.new 100 props0).tipPos ⟨0, 0, 0⟩)))
          (Vec3.normalize ⟨0, 1, 0⟩) <
        Real.cos ((Stick.new 100 props0).props.maxBendAngle * (Real.pi / 180)) :=
    Or.inl (show ¬ (180 : ℝ) < 179.9 from by norm_num)
  exact ⟨hvel, haL, zero_dt_noop_at_rest _ _ _ hvel haL hdist hbend⟩

/-- C6 counterexample: QueryNormalizedPosition(1) does not always
return tipPosition.  For a freshly constructed stick with length 1 and
gripRatio 0.95 the active length 0.05 is degenerate, so the query
returns handlePosition (0,0,0) while tipPosition is (0,0.05,0). -/
theorem query_tip_not_tip :
    (Stick.new 1 props95).queryPNormalize 1 ≠ (Stick.new 1 props95).tipPos := by
  have htip : (Stick.new 1 props95).tipPos = ⟨0, 0.05, 0⟩ := by
    rw [new_tipPos]
    ext <;> simp [props95, props0] <;> norm_num
  have hq : (Stick.new 1 props95).queryPNormalize 1 = ⟨0, 0, 0⟩ := by
    unfold Stick.queryPNormalize
    simp only
    rw [show orDefault (Stick.new 1 props95).props.gripRatio 0 = 0.95 from by
      show orDefault (0.95 : ℝ) 0 = 0.95
      rw [orDefault_zero]]
    rw [if_neg (by norm_num : ¬ (1 : ℝ) < 0.95)]
    rw [if_pos (show (Stick.new 1 props95).length * (1 - 0.95) ≤ 0.1 from by
      show (1 : ℝ) * (1 - 0.95) ≤ 0.1
      norm_num)]
    rfl
  rw [hq, htip]
  intro hcontra
  have := congrArg Vector3.y hcontra
  norm_num at this

/-- C6 amended: QueryNormalizedPosition(1) equals tipPosition whenever
gripRatio < 1 and activeLength > 0.1 (in the degenerate case the query
returns handlePosition instead); QueryNormalizedPosition(gripRatio)
equals handlePosition when gripRatio > 0, and
QueryNormalizedPosition(0) equals handlePosition when gripRatio = 0,
both without further conditions. -/
theorem query_boundary (s : Stick) :
    (s.props.gripRatio < 1 → 0.1 < s.length * (1 - s.props.gripRatio) →
      s.queryPNormalize 1 = s.tipPos) ∧
    (0 < s.props.gripRatio → s.queryPNormalize s.props.gripRatio = s.handlePos) ∧
    (s.props.gripRatio = 0 → s.queryPNormalize 0 = s.handlePos) := by
  refine ⟨fun hg hA => ?_, fun hg => ?_, fun hg0 => ?_⟩
  · unfold Stick.queryPNormalize
    simp only
    rw [orDefault_zero]
    rw [if_neg (not_lt.mpr hg.le)]
    rw [if_neg (not_le.mpr hA)]
    rw [show (1 - s.props.gripRatio) / (1 - s.props.gripRatio) = 1 from
      div_self (by linarith)]
    ext <;> simp [Vec3.add, Vec3.scale, Vec3.sub] <;> ring
  · unfold Stick.queryPNormalize
    simp only
    rw [orDefault_zero]
    rw [if_neg (lt_irrefl s.props.gripRatio)]
    by_cases hA : s.length * (1 - s.props.gripRatio) ≤ 0.1
    · rw [if_pos hA]
    · rw [if_neg hA]
      rw [show (s.props.gripRatio - s.props.gripRatio) / (1 - s.props.gripRatio) = 0 from by
        rw [sub_self, zero_div]]
      ext <;> simp [Vec3.add, Vec3.scale, Vec3.sub] <;> ring
  · unfold Stick.queryPNormalize
    simp only
    rw [orDefault_zero, hg0]
    rw [if_neg (lt_irrefl (0 : ℝ))]
    by_cases hA : s.length * (1 - 0) ≤ 0.1
    · rw [if_pos hA]
    · rw [if_neg hA]
      rw [show ((0 : ℝ) - 0) / (1 - 0) = 0 from by norm_num]
      ext <;> simp [Vec3.add, Vec3.scale, Vec3.sub] <;> ring

/-- Witness for the amended C6 on a non-degenerate stick: length 100,
default properties (gripRatio 0). -/
theorem query_boundary_witness :
    (Stick.new 100 props0).props.gripRatio < 1 ∧
    0.1 < (Stick.new 100 props0).length * (1 - (Stick.new 100 props0).props.gripRatio) ∧
    (Stick.new 100 props0).queryPNormalize 1 = (Stick.new 100 props0).tipPos ∧
    (Stick.new 100 props0).queryPNormalize 0 = (Stick.new 100 props0).handlePos := by
  have h1 : (Stick.new 100 props0).props.gripRatio < 1 := by
    show (0 : ℝ) < 1
    norm_num
  have h2 : (0.1 : ℝ) < (Stick.new 100 props0).length *
      (1 - (Stick.new 100 props0).props.gripRatio) := by
    show (0.1 : ℝ) < 100 * (1 - 0)
    norm_num
  exact ⟨h1, h2, (query_boundary _).1 h1 h2, (query_boundary _).2.2 rfl⟩

theorem swing_handleDir (s : Stick) (h d : Vector3) (dt : ℝ) :
    (s.swing h d dt).handleDir = Vec3.normalize d := by
  rw [Stick.swing_eq]
  split_ifs with hdeg
  · rfl
  · rw [Stick.iterate_step_handleDir]

/-- C7 counterexample: the stored handleDirection is not unit-length
after every assignment.  Advance with the zero direction vector stores
normalize(0,0,0) = (0,0,0), whose length is 0, not 1. -/
theorem handleDir_not_unit :
    Vec3.length ((Stick.new 1 props0).swing ⟨1, 2, 3⟩ ⟨0, 0, 0⟩ 0.016).handleDir ≠ 1 := by
  rw [swing_handleDir, Vec3.normalize_zero, Vec3.length_zero]
  norm_num

/-- C7 amended: handleDirection is unit-length after construction, and
after any Advance whose supplied direction vector is nonzero (the
vector need not be pre-normalized); a zero direction vector is stored
as the zero vector. -/
theorem handleDir_unit (s : Stick) (h d : Vector3) (dt : ℝ) (L : ℝ)
    (p : ElasticProperties) (hd : d ≠ ⟨0, 0, 0⟩) :
    Vec3.length (Stick.new L p).handleDir = 1 ∧
    Vec3.length ((s.swing h d dt).handleDir) = 1 := by
  constructor
  · show Vec3.length ⟨0, 1, 0⟩ = 1
    exact length_0y0 zero_le_one
  · rw [swing_handleDir]
    exact Vec3.length_normalize (fun h0 => hd ((Vec3.length_eq_zero_iff d).mp h0))

/-- Witness for the amended C7 at the nonzero, non-normalized
direction (0, 0, 3). -/
theorem handleDir_unit_witness :
    (⟨0, 0, 3⟩ : Vector3) ≠ ⟨0, 0, 0⟩ ∧
    Vec3.length ((Stick.new 100 props0).swing ⟨0, 0, 0⟩ ⟨0, 0, 3⟩ 0).handleDir = 1 :=
  ⟨by simp, (handleDir_unit _ _ _ _ 100 props0 (by simp)).2⟩

namespace Stick

theorem performPhysicsStep_patch (u : Stick) (aL sdt : ℝ)
    (hz : u.props.maxStretchRatio = 0) :
    performPhysicsStep { u with props := { u.props with maxStretchRatio := 1.5 } } aL sdt =
    { performPhysicsStep u aL sdt with
        props := { u.props with maxStretchRatio := 1.5 } } := by
  unfold performPhysicsStep
  simp only
  rw [hz, orDefault_zero_left]
  rw [show orDefault
      ({ u.props with maxStretchRatio := 1.5 } : ElasticProperties).maxStretchRatio 1.5 =
      1.5 from by
    show orDefault (1.5 : ℝ) 1.5 = 1.5
    exact orDefault_of_ne _ (by norm_num)]
  rfl

theorem iterate_step_patch (aL sdt : ℝ) (n : ℕ) (u : Stick)
    (hz : u.props.maxStretchRatio = 0) :
    (fun st => performPhysicsStep st aL sdt)^[n]
      { u with props := { u.props with maxStretchRatio := 1.5 } } =
    { (fun st => performPhysicsStep st aL sdt)^[n] u with
        props := { u.props with maxStretchRatio := 1.5 } } := by
  induction n with
  | zero => rfl
  | succ n ih =>
    rw [Function.iterate_succ_apply', Function.iterate_succ_apply', ih]
    have hz' : ((fun st => performPhysicsStep st aL sdt)^[n] u).props.maxStretchRatio = 0 := by
      rw [iterate_step_props]
      exact hz
    have hp := performPhysicsStep_patch ((fun st => performPhysicsStep st aL sdt)^[n] u)
      aL sdt hz'
    rw [iterate_step_props] at hp
    exact hp

end Stick

/-- The default configuration with maxStretchRatio set to the falsy
value 0. -/
def propsZ : ElasticProperties := { props0 with maxStretchRatio := 0 }

/-- C10: when maxStretchRatio is 0 (falsy in JavaScript), each
physics sub-step applies the hard stretch clamp with the default ratio
1.5 — the clamp bound is activeLength * 1.5, not 0 — and consequently
an Advance call behaves exactly as if maxStretchRatio were 1.5. -/
theorem falsy_maxStretchRatio_default (s : Stick) (h d : Vector3) (dt : ℝ)
    (hz : s.props.maxStretchRatio = 0) :
    (∀ aL sdt : ℝ, s.performPhysicsStep aL sdt =
      { s with oldTipPos := s.tipPos,
               tipPos := Stick.stretchClamp s.handlePos (aL * 1.5)
                 (Stick.bendClamp s.handlePos s.handleDir s.props.maxBendAngle
                   (Stick.softLengthCorrection s.handlePos s.props.stretchFactor aL sdt
                     (Stick.verletCandidate s aL sdt))) }) ∧
    (s.swing h d dt).tipPos =
      (({ s with props := { s.props with maxStretchRatio := 1.5 } } : Stick).swing
        h d dt).tipPos ∧
    (s.swing h d dt).oldTipPos =
      (({ s with props := { s.props with maxStretchRatio := 1.5 } } : Stick).swing
        h d dt).oldTipPos := by
  have hL : ({ s with props := { s.props with maxStretchRatio := 1.5 } } : Stick).length =
      s.length := rfl
  have hG : ({ s with props := { s.props with maxStretchRatio := 1.5 } } : Stick).props.gripRatio =
      s.props.gripRatio := rfl
  have hboth : (s.swing h d dt).tipPos =
      (({ s with props := { s.props with maxStretchRatio := 1.5 } } : Stick).swing
        h d dt).tipPos ∧
      (s.swing h d dt).oldTipPos =
      (({ s with props := { s.props with maxStretchRatio := 1.5 } } : Stick).swing
        h d dt).oldTipPos := by
    rw [Stick.swing_eq, Stick.swing_eq, hL, hG]
    by_cases hdeg : s.length * (1 - orDefault s.props.gripRatio 0) < 0.1
    · rw [if_pos hdeg, if_pos hdeg]
      exact ⟨rfl, rfl⟩
    · rw [if_neg hdeg, if_neg hdeg]
      have hz1 : (({ s with handlePos := h, handleDir := Vec3.normalize d } : Stick)).props.maxStretchRatio = 0 := hz
      have hkey := Stick.iterate_step_patch
        (s.length * (1 - orDefault s.props.gripRatio 0)) (dt / 8) 8
        { s with handlePos := h, handleDir := Vec3.normalize d } hz1
      exact ⟨(congrArg Stick.tipPos hkey).symm, (congrArg Stick.oldTipPos hkey).symm⟩
  refine ⟨fun aL sdt => ?_, hboth.1, hboth.2⟩
  unfold Stick.performPhysicsStep
  simp only
  rw [hz, orDefault_zero_left]

/-- Witness for C10 on a concrete stick whose maxStretchRatio is 0. -/
theorem falsy_maxStretchRatio_default_witness :
    (Stick.new 1 propsZ).props.maxStretchRatio = 0 ∧
    ((Stick.new 1 propsZ).swing ⟨0, 0, 0⟩ ⟨0, 1, 0⟩ 0.5).tipPos =
      (({ Stick.new 1 propsZ with
            props := { (Stick.new 1 propsZ).props with maxStretchRatio := 1.5 } } : Stick).swing
        ⟨0, 0, 0⟩ ⟨0, 1, 0⟩ 0.5).tipPos :=
  ⟨rfl, (falsy_maxStretchRatio_default _ ⟨0, 0, 0⟩ ⟨0, 1, 0⟩ 0.5 rfl).2.1⟩

theorem slerp_weight_identity (a b : ℝ) :
    Real.sin a ^ 2 + 2 * Real.sin a * Real.sin b * Real.cos (a + b) + Real.sin b ^ 2 =
    Real.sin (a + b) ^ 2 := by
  rw [Real.sin_add, Real.cos_add]
  linear_combination (-(Real.sin b ^ 2)) * Real.sin_sq_add_cos_sq a +
    (-(Real.sin a ^ 2)) * Real.sin_sq_add_cos_sq b

theorem arccos_le_of_cos_le {x t : ℝ} (ht0 : 0 ≤ t) (hx1 : -1 ≤ x) (hx2 : x ≤ 1)
    (h : Real.cos t ≤ x) : Real.arccos x ≤ t := by
  by_contra hcon
  push_neg at hcon
  have h1 : Real.cos (Real.arccos x) < Real.cos t :=
    Real.cos_lt_cos_of_nonneg_of_le_pi ht0 (Real.arccos_le_pi x) hcon
  rw [Real.cos_arccos hx1 hx2] at h1
  linarith

theorem dot_expand_self (u v : Vector3) (c1 c2 : ℝ) :
    Vec3.dot (Vec3.add (Vec3.scale u c1) (Vec3.scale v c2))
      (Vec3.add (Vec3.scale u c1) (Vec3.scale v c2)) =
    c1 * c1 * Vec3.dot u u + 2 * c1 * c2 * Vec3.dot v u + c2 * c2 * Vec3.dot v v := by
  unfold Vec3.dot Vec3.add Vec3.scale
  ring

theorem dot_expand_left (u v w : Vector3) (c1 c2 : ℝ) :
    Vec3.dot (Vec3.add (Vec3.scale u c1) (Vec3.scale v c2)) w =
    c1 * Vec3.dot u w + c2 * Vec3.dot v w := by
  unfold Vec3.dot Vec3.add Vec3.scale
  ring

/-- The code's two-weight slerp combination of the unit handle
direction and the unit tip direction lands exactly on the cone of
half-angle rad: it is a unit vector whose dot product with the handle
direction is cos rad. -/
theorem slerp_onto_cone (dvec tipDir : Vector3) (θ rad : ℝ)
    (hd : Vec3.length dvec = 1) (ht : Vec3.length tipDir = 1)
    (hcos : Vec3.dot tipDir dvec = Real.cos θ)
    (hθ0 : 0 < θ) (hθπ : θ < Real.pi) :
    Vec3.length (Vec3.add (Vec3.scale dvec (Real.sin ((1 - rad / θ) * θ) / Real.sin θ))
        (Vec3.scale tipDir (Real.sin (rad / θ * θ) / Real.sin θ))) = 1 ∧
    Vec3.dot (Vec3.add (Vec3.scale dvec (Real.sin ((1 - rad / θ) * θ) / Real.sin θ))
        (Vec3.scale tipDir (Real.sin (rad / θ * θ) / Real.sin θ))) dvec = Real.cos rad := by
  have hsin : 0 < Real.sin θ := Real.sin_pos_of_pos_of_lt_pi hθ0 hθπ
  have harg1 : (1 - rad / θ) * θ = θ - rad := by
    rw [sub_mul, one_mul, div_mul_cancel₀ rad hθ0.ne']
  have harg2 : rad / θ * θ = rad := div_mul_cancel₀ rad hθ0.ne'
  rw [harg1, harg2]
  have hdd : Vec3.dot dvec dvec = 1 := by
    rw [Vec3.dot_self, hd]
    norm_num
  have htt : Vec3.dot tipDir tipDir = 1 := by
    rw [Vec3.dot_self, ht]
    norm_num
  set X := Vec3.add (Vec3.scale dvec (Real.sin (θ - rad) / Real.sin θ))
    (Vec3.scale tipDir (Real.sin rad / Real.sin θ)) with hX
  constructor
  · have hself : Vec3.dot X X = 1 := by
      rw [hX, dot_expand_self, hdd, htt, hcos]
      have hsid := slerp_weight_identity (θ - rad) rad
      rw [sub_add_cancel] at hsid
      field_simp
      linear_combination hsid
    have hsq : Vec3.length X = Real.sqrt (Vec3.dot X X) := rfl
    rw [hsq, hself, Real.sqrt_one]
  · rw [hX, dot_expand_left, hdd, hcos, Real.sin_sub]
    field_simp
    ring

/-- After the bend clamp, either the tip candidate lies within 1e-4 of
the handle (the clamp was skipped as degenerate), or the cosine of the
angle between its direction from the handle and the unit handle
direction is at least cos(maxBendAngle in radians + 0.001); the 0.001
radian slack comes from the currentAngle > 0.001 guard in the code. -/
theorem bendClamp_cos_bound (hp dvec : Vector3) {deg : ℝ} (p : Vector3)
    (hunit : Vec3.length dvec = 1) (hdeg0 : 0 < deg) (hdeg : deg < 179.9) :
    Vec3.length (Vec3.sub (Stick.bendClamp hp dvec deg p) hp) ≤ 0.0001 ∨
    Real.cos (deg * (Real.pi / 180) + 0.001) ≤
      Vec3.dot (Vec3.normalize (Vec3.sub (Stick.bendClamp hp dvec deg p) hp)) dvec := by
  have hπ := Real.pi_gt_three
  have hrad0 : 0 < deg * (Real.pi / 180) := mul_pos hdeg0 (by positivity)
  have hradπ : deg * (Real.pi / 180) + 0.001 ≤ Real.pi := by
    nlinarith [mul_pos (sub_pos.mpr hdeg) Real.pi_pos]
  unfold Stick.bendClamp
  simp only
  split_ifs with h1 h2 h3
  · -- slerp branch
    have hLpos : 0 < Vec3.length (Vec3.sub p hp) := lt_trans (by norm_num) h1
    have hL0 : Vec3.length (Vec3.sub p hp) ≠ 0 := hLpos.ne'
    have htip : Vec3.length (Vec3.scale (Vec3.sub p hp)
        (1 / Vec3.length (Vec3.sub p hp))) = 1 := by
      rw [Vec3.length_scale, abs_of_pos (one_div_pos.mpr hLpos), one_div_mul_cancel hL0]
    have hCS := Vec3.abs_dot_le_one htip hunit
    have hclamp : max (-1) (min 1 (Vec3.dot (Vec3.scale (Vec3.sub p hp)
        (1 / Vec3.length (Vec3.sub p hp))) dvec)) =
        Vec3.dot (Vec3.scale (Vec3.sub p hp) (1 / Vec3.length (Vec3.sub p hp))) dvec := by
      rw [min_eq_right hCS.2, max_eq_right hCS.1]
    rw [hclamp] at h3 ⊢
    have hcosAcos : Real.cos (Real.arccos (Vec3.dot (Vec3.scale (Vec3.sub p hp)
        (1 / Vec3.length (Vec3.sub p hp))) dvec)) =
        Vec3.dot (Vec3.scale (Vec3.sub p hp) (1 / Vec3.length (Vec3.sub p hp))) dvec :=
      Real.cos_arccos hCS.1 hCS.2
    rcases eq_or_lt_of_le hCS.1 with hm1 | hm1
    · left
      have hθπ' : Real.arccos (Vec3.dot (Vec3.scale (Vec3.sub p hp)
          (1 / Vec3.length (Vec3.sub p hp))) dvec) = Real.pi := by
        rw [← hm1]
        exact Real.arccos_neg_one
      rw [hθπ', Real.sin_pi]
      simp only [div_zero]
      rw [show Vec3.add (Vec3.scale dvec 0) (Vec3.scale (Vec3.scale (Vec3.sub p hp)
          (1 / Vec3.length (Vec3.sub p hp))) 0) = (⟨0, 0, 0⟩ : Vector3) from by
        ext <;> simp [Vec3.add, Vec3.scale]]
      rw [Vec3.normalize_zero, Vec3.scale_zero_vec, Vec3.sub_add_cancel_vec, Vec3.length_zero]
      norm_num
    · right
      have hθlt : Real.arccos (Vec3.dot (Vec3.scale (Vec3.sub p hp)
          (1 / Vec3.length (Vec3.sub p hp))) dvec) < Real.pi := by
        rcases lt_or_eq_of_le (Real.arccos_le_pi (Vec3.dot (Vec3.scale (Vec3.sub p hp)
            (1 / Vec3.length (Vec3.sub p hp))) dvec)) with hlt | heq
        · exact hlt
        · exfalso
          have := Real.arccos_eq_pi.mp heq
          linarith
      have hθpos : 0 < Real.arccos (Vec3.dot (Vec3.scale (Vec3.sub p hp)
          (1 / Vec3.length (Vec3.sub p hp))) dvec) := lt_trans (by norm_num) h3
      obtain ⟨hlen1, hdot⟩ := slerp_onto_cone dvec
        (Vec3.scale (Vec3.sub p hp) (1 / Vec3.length (Vec3.sub p hp)))
        (Real.arccos (Vec3.dot (Vec3.scale (Vec3.sub p hp)
          (1 / Vec3.length (Vec3.sub p hp))) dvec))
        (deg * (Real.pi / 180)) hunit htip hcosAcos.symm hθpos hθlt
      rw [Vec3.normalize_of_length_one hlen1, Vec3.sub_add_cancel_vec,
        Vec3.normalize_scale_pos _ hLpos, Vec3.normalize_of_length_one hlen1, hdot]
      exact Real.cos_le_cos_of_nonneg_of_le_pi hrad0.le hradπ (by linarith)
  · -- currentAngle ≤ 0.001: tip essentially aligned, clamp skipped
    right
    have hLpos : 0 < Vec3.length (Vec3.sub p hp) := lt_trans (by norm_num) h1
    have hL0 : Vec3.length (Vec3.sub p hp) ≠ 0 := hLpos.ne'
    have htip : Vec3.length (Vec3.scale (Vec3.sub p hp)
        (1 / Vec3.length (Vec3.sub p hp))) = 1 := by
      rw [Vec3.length_scale, abs_of_pos (one_div_pos.mpr hLpos), one_div_mul_cancel hL0]
    have hCS := Vec3.abs_dot_le_one htip hunit
    have hclamp : max (-1) (min 1 (Vec3.dot (Vec3.scale (Vec3.sub p hp)
        (1 / Vec3.length (Vec3.sub p hp))) dvec)) =
        Vec3.dot (Vec3.scale (Vec3.sub p hp) (1 / Vec3.length (Vec3.sub p hp))) dvec := by
      rw [min_eq_right hCS.2, max_eq_right hCS.1]
    rw [hclamp] at h3
    rw [Vec3.normalize_eq_scale hL0]
    have hθle : Real.arccos (Vec3.dot (Vec3.scale (Vec3.sub p hp)
        (1 / Vec3.length (Vec3.sub p hp))) dvec) ≤ 0.001 := not_lt.mp h3
    have h5 : Real.cos (deg * (Real.pi / 180) + 0.001) ≤
        Real.cos (Real.arccos (Vec3.dot (Vec3.scale (Vec3.sub p hp)
          (1 / Vec3.length (Vec3.sub p hp))) dvec)) :=
      Real.cos_le_cos_of_nonneg_of_le_pi (Real.arccos_nonneg _) hradπ
        (by linarith)
    rw [Real.cos_arccos hCS.1 hCS.2] at h5
    exact h5
  · -- within the cone: clamp not triggered
    right
    have hLpos : 0 < Vec3.length (Vec3.sub p hp) := lt_trans (by norm_num) h1
    have hL0 : Vec3.length (Vec3.sub p hp) ≠ 0 := hLpos.ne'
    rw [Vec3.normalize_eq_scale hL0]
    have h5 : Real.cos (deg * (Real.pi / 180) + 0.001) ≤ Real.cos (deg * (Real.pi / 180)) :=
      Real.cos_le_cos_of_nonneg_of_le_pi hrad0.le hradπ (by linarith)
    exact le_trans h5 (not_lt.mp h2)
  · left
    exact not_lt.mp h1

/-- The default configuration with the bend cone tightened to 45
degrees. -/
def propsB : ElasticProperties := { props0 with maxBendAngle := 45 }

/-- Rest state for the bend counterexample: tip at (0,1,0), zero
implicit velocity, bend limit 45 degrees. -/
def sB : Stick :=
  { length := 1, props := propsB, handlePos := ⟨0, 0, 0⟩, handleDir := ⟨0, 1, 0⟩,
    tipPos := ⟨0, 1, 0⟩, oldTipPos := ⟨0, 1, 0⟩ }

/-- sB after its handle is moved onto the tip: a fixed point of the
zero-dt sub-step in which the tip coincides with the handle. -/
def stB : Stick :=
  { length := 1, props := propsB, handlePos := ⟨0, 1, 0⟩, handleDir := ⟨0, 1, 0⟩,
    tipPos := ⟨0, 1, 0⟩, oldTipPos := ⟨0, 1, 0⟩ }

theorem step_stB : Stick.performPhysicsStep stB 1 0 = stB := by
  unfold Stick.performPhysicsStep
  simp only
  have hsub0 : Vec3.sub ⟨0, 1, 0⟩ (⟨0, 1, 0⟩ : Vector3) = ⟨0, 0, 0⟩ := by
    ext <;> simp [Vec3.sub]
  have hvc : Stick.verletCandidate stB 1 0 = ⟨0, 1, 0⟩ := by
    rw [Stick.verletCandidate_dt_zero]
    show Vec3.add ⟨0, 1, 0⟩ (Vec3.sub ⟨0, 1, 0⟩ ⟨0, 1, 0⟩) = _
    ext <;> simp [Vec3.add, Vec3.sub]
  rw [hvc, Stick.softLengthCorrection_dt_zero,
    Stick.bendClamp_eq_self _ _ _ _ (Or.inr (Or.inl
      (show ¬ Vec3.length (Vec3.sub ⟨0, 1, 0⟩ stB.handlePos) > 0.0001 from by
        show ¬ Vec3.length (Vec3.sub ⟨0, 1, 0⟩ (⟨0, 1, 0⟩ : Vector3)) > 0.0001
        rw [hsub0, Vec3.length_zero]
        norm_num))),
    show (1 : ℝ) * orDefault stB.props.maxStretchRatio 1.5 = 1.5 from by
      show (1 : ℝ) * orDefault (1.5 : ℝ) 1.5 = 1.5
      rw [orDefault_of_ne _ (by norm_num : (1.5 : ℝ) ≠ 0)]
      norm_num,
    Stick.stretchClamp_eq_self _ _ _
      (show ¬ Vec3.length (Vec3.sub ⟨0, 1, 0⟩ stB.handlePos) > 1.5 from by
        show ¬ Vec3.length (Vec3.sub ⟨0, 1, 0⟩ (⟨0, 1, 0⟩ : Vector3)) > 1.5
        rw [hsub0, Vec3.length_zero]
        norm_num)]
  rfl

/-- C2 counterexample: the max-bend invariant fails as stated.  From
the rest state sB (bend limit 45 degrees), Advance with the handle
position moved onto the tip and dt = 0 leaves the tip exactly on the
handle; normalize(tipPosition - handlePosition) is then the zero
vector, its dot product with handleDirection is 0, and the angle
arccos 0 = 90 degrees exceeds 45 degrees + 0.001 rad.  The bend clamp
is skipped whenever the tip is within 1e-4 of the handle, so no bound
on the angle holds there. -/
theorem maxBend_not_invariant :
    ¬ (Real.arccos (Vec3.dot (Vec3.normalize (Vec3.sub
          ((sB.swing ⟨0, 1, 0⟩ ⟨0, 1, 0⟩ 0).tipPos)
          ((sB.swing ⟨0, 1, 0⟩ ⟨0, 1, 0⟩ 0).handlePos)))
        ((sB.swing ⟨0, 1, 0⟩ ⟨0, 1, 0⟩ 0).handleDir)) ≤
      sB.props.maxBendAngle * (Real.pi / 180) + 0.001) := by
  have hs : sB.swing ⟨0, 1, 0⟩ ⟨0, 1, 0⟩ 0 = stB := by
    rw [Stick.swing_eq]
    have hA : sB.length * (1 - orDefault sB.props.gripRatio 0) = 1 := by
      rw [orDefault_zero]
      show (1 : ℝ) * (1 - 0) = 1
      norm_num
    simp only [hA, zero_div]
    rw [if_neg (by norm_num : ¬ ((1 : ℝ) < 0.1))]
    rw [show ({ sB with handlePos := ⟨0, 1, 0⟩, handleDir := Vec3.normalize ⟨0, 1, 0⟩ } : Stick) = stB from by
      rw [normalize_up]
      rfl]
    exact Function.iterate_fixed step_stB 8
  rw [hs]
  rw [show Vec3.sub stB.tipPos stB.handlePos = ⟨0, 0, 0⟩ from by ext <;> simp [stB, Vec3.sub]]
  rw [Vec3.normalize_zero]
  rw [show Vec3.dot ⟨0, 0, 0⟩ stB.handleDir = 0 from by simp [Vec3.dot]]
  rw [Real.arccos_zero]
  show ¬ (Real.pi / 2 ≤ (45 : ℝ) * (Real.pi / 180) + 0.001)
  intro hcon
  linarith [Real.pi_gt_three]

/-- C2 amended: for every prior state and Advance call with a nonzero
direction vector, a configuration with 0 < maxBendAngle < 179.9 and
maxStretchRatio at least 1, after the call either the tip lies within
1e-4 of the handle (the degenerate case in which the bend clamp is
skipped), or the angle between normalize(tipPosition - handlePosition)
and handleDirection is at most maxBendAngle (in radians) + 0.001, the
0.001 rad slack coming from the currentAngle > 0.001 guard; the hard
stretch clamp applied after the bend clamp preserves the clamped
direction. -/
theorem maxBend_invariant (s : Stick) (h d : Vector3) (dt : ℝ)
    (hd : d ≠ ⟨0, 0, 0⟩)
    (hdeg0 : 0 < s.props.maxBendAngle) (hdeg : s.props.maxBendAngle < 179.9)
    (hratio : 1 ≤ s.props.maxStretchRatio) :
    Vec3.length (Vec3.sub (s.swing h d dt).tipPos h) ≤ 0.0001 ∨
    Real.arccos (Vec3.dot (Vec3.normalize (Vec3.sub (s.swing h d dt).tipPos h))
        ((s.swing h d dt).handleDir)) ≤
      s.props.maxBendAngle * (Real.pi / 180) + 0.001 := by
  have hdirunit : Vec3.length (Vec3.normalize d) = 1 :=
    Vec3.length_normalize (fun h0 => hd ((Vec3.length_eq_zero_iff d).mp h0))
  have hπ := Real.pi_gt_three
  have hrad0 : 0 < s.props.maxBendAngle * (Real.pi / 180) := mul_pos hdeg0 (by positivity)
  have hradπ : s.props.maxBendAngle * (Real.pi / 180) + 0.001 ≤ Real.pi := by
    nlinarith [mul_pos (sub_pos.mpr hdeg) Real.pi_pos]
  rw [swing_handleDir, Stick.swing_eq]
  by_cases hdegen : s.length * (1 - orDefault s.props.gripRatio 0) < 0.1
  · rw [if_pos hdegen]
    left
    show Vec3.length (Vec3.sub h h) ≤ 0.0001
    rw [show Vec3.sub h h = (⟨0, 0, 0⟩ : Vector3) from by ext <;> simp [Vec3.sub],
      Vec3.length_zero]
    norm_num
  · rw [if_neg hdegen]
    rw [show (8 : ℕ) = 7 + 1 from rfl, Function.iterate_succ_apply']
    set s7 := (fun st => Stick.performPhysicsStep st
        (s.length * (1 - orDefault s.props.gripRatio 0)) (dt / 8))^[7]
      { s with handlePos := h, handleDir := Vec3.normalize d } with hs7
    have hP : s7.handlePos = h := by
      rw [hs7, Stick.iterate_step_handlePos]
    have hD : s7.handleDir = Vec3.normalize d := by
      rw [hs7, Stick.iterate_step_handleDir]
    have hPr : s7.props = s.props := by
      rw [hs7, Stick.iterate_step_props]
    have htip : (Stick.performPhysicsStep s7
        (s.length * (1 - orDefault s.props.gripRatio 0)) (dt / 8)).tipPos =
        Stick.stretchClamp h ((s.length * (1 - orDefault s.props.gripRatio 0)) *
            orDefault s.props.maxStretchRatio 1.5)
          (Stick.bendClamp h (Vec3.normalize d) s.props.maxBendAngle
            (Stick.softLengthCorrection h s.props.stretchFactor
              (s.length * (1 - orDefault s.props.gripRatio 0)) (dt / 8)
              (Stick.verletCandidate s7
                (s.length * (1 - orDefault s.props.gripRatio 0)) (dt / 8)))) := by
      show Stick.stretchClamp s7.handlePos
          ((s.length * (1 - orDefault s.props.gripRatio 0)) *
            orDefault s7.props.maxStretchRatio 1.5)
          (Stick.bendClamp s7.handlePos s7.handleDir s7.props.maxBendAngle
            (Stick.softLengthCorrection s7.handlePos s7.props.stretchFactor
              (s.length * (1 - orDefault s.props.gripRatio 0)) (dt / 8)
              (Stick.verletCandidate s7
                (s.length * (1 - orDefault s.props.gripRatio 0)) (dt / 8)))) = _
      rw [hP, hD, hPr]
    rw [htip]
    set q := Stick.bendClamp h (Vec3.normalize d) s.props.maxBendAngle
      (Stick.softLengthCorrection h s.props.stretchFactor
        (s.length * (1 - orDefault s.props.gripRatio 0)) (dt / 8)
        (Stick.verletCandidate s7
          (s.length * (1 - orDefault s.props.gripRatio 0)) (dt / 8))) with hq
    have hbb := bendClamp_cos_bound h (Vec3.normalize d)
      (Stick.softLengthCorrection h s.props.stretchFactor
        (s.length * (1 - orDefault s.props.gripRatio 0)) (dt / 8)
        (Stick.verletCandidate s7
          (s.length * (1 - orDefault s.props.gripRatio 0)) (dt / 8)))
      hdirunit hdeg0 hdeg
    rw [← hq] at hbb
    have hm : (0.1 : ℝ) ≤ (s.length * (1 - orDefault s.props.gripRatio 0)) *
        orDefault s.props.maxStretchRatio 1.5 := by
      have hr0 : s.props.maxStretchRatio ≠ 0 := ne_of_gt (lt_of_lt_of_le one_pos hratio)
      rw [orDefault_of_ne _ hr0]
      have hA01 : (0.1 : ℝ) ≤ s.length * (1 - orDefault s.props.gripRatio 0) :=
        not_lt.mp hdegen
      nlinarith
    rcases hbb with hsmall | hcos
    · left
      rw [Stick.stretchClamp_eq_self _ _ _ (not_lt.mpr (le_trans hsmall (by linarith)))]
      exact hsmall
    · have hxb : -1 ≤ Vec3.dot (Vec3.normalize (Vec3.sub q h)) (Vec3.normalize d) ∧
          Vec3.dot (Vec3.normalize (Vec3.sub q h)) (Vec3.normalize d) ≤ 1 := by
        by_cases hqz : Vec3.length (Vec3.sub q h) = 0
        · rw [(Vec3.length_eq_zero_iff _).mp hqz, Vec3.normalize_zero]
          constructor <;> simp [Vec3.dot]
        · exact Vec3.abs_dot_le_one (Vec3.length_normalize hqz) hdirunit
      right
      by_cases hgt : Vec3.length (Vec3.sub q h) >
          (s.length * (1 - orDefault s.props.gripRatio 0)) *
            orDefault s.props.maxStretchRatio 1.5
      · unfold Stick.stretchClamp
        simp only
        rw [if_pos hgt, Vec3.sub_add_cancel_vec,
          Vec3.normalize_scale_pos _ (lt_of_lt_of_le (by norm_num) hm), Vec3.normalize_idem]
        exact arccos_le_of_cos_le (by linarith) hxb.1 hxb.2 hcos
      · rw [Stick.stretchClamp_eq_self _ _ _ hgt]
        exact arccos_le_of_cos_le (by linarith) hxb.1 hxb.2 hcos

/-- Witness for the amended C2: length 100, 45-degree bend limit,
handle at the origin, nonzero direction (0,1,0), dt = 0. -/
theorem maxBend_invariant_witness :
    (⟨0, 1, 0⟩ : Vector3) ≠ ⟨0, 0, 0⟩ ∧
    0 < (Stick.new 100 propsB).props.maxBendAngle ∧
    (Stick.new 100 propsB).props.maxBendAngle < 179.9 ∧
    1 ≤ (Stick.new 100 propsB).props.maxStretchRatio ∧
    (Vec3.length (Vec3.sub
        ((Stick.new 100 propsB).swing ⟨0, 0, 0⟩ ⟨0, 1, 0⟩ 0).tipPos ⟨0, 0, 0⟩) ≤ 0.0001 ∨
      Real.arccos (Vec3.dot (Vec3.normalize (Vec3.sub
            ((Stick.new 100 propsB).swing ⟨0, 0, 0⟩ ⟨0, 1, 0⟩ 0).tipPos ⟨0, 0, 0⟩))
          (((Stick.new 100 propsB).swing ⟨0, 0, 0⟩ ⟨0, 1, 0⟩ 0).handleDir)) ≤
        (Stick.new 100 propsB).props.maxBendAngle * (Real.pi / 180) + 0.001) := by
  have h1 : (⟨0, 1, 0⟩ : Vector3) ≠ ⟨0, 0, 0⟩ := by simp
  have h2 : (0 : ℝ) < (Stick.new 100 propsB).props.maxBendAngle := by
    show (0 : ℝ) < 45
    norm_num
  have h3 : (Stick.new 100 propsB).props.maxBendAngle < 179.9 := by
    show (45 : ℝ) < 179.9
    norm_num
  have h4 : (1 : ℝ) ≤ (Stick.new 100 propsB).props.maxStretchRatio := by
    show (1 : ℝ) ≤ 1.5
    norm_num
  exact ⟨h1, h2, h3, h4, maxBend_invariant _ _ _ _ h1 h2 h3 h4⟩

end ESS

end
